import Mathlib

/-!
Verification of the EbayXlister listing store (src/ebay_xlister.py).

The Python module is embedded shallowly:
* `EbayListing` mirrors the Python class of the same name; `price` is modelled
  as a rational number (Python floats are used only as exact decimals here) and
  `created_at` is threaded as an explicit `now` string because the source reads
  the clock at construction time.
* Console output is modelled as an explicit `output : List String` field of the
  store state, one entry per Python `print` call.
* The file system is modelled by explicit parameters: a CSV source is
  `Option (List CsvRow)` (`none` = file not found), and the JSON destination is
  the second component of the result of `export_to_json`.
-/

/-- Digits to the natural number they denote, most significant first. -/
def digitsVal (l : List Char) : Nat :=
  l.foldl (fun a c => 10 * a + (c.toNat - 48)) 0

/-- Python `str.strip()` on a character list: drop whitespace at both ends. -/
def stripWs (l : List Char) : List Char :=
  ((l.dropWhile Char.isWhitespace).reverse.dropWhile Char.isWhitespace).reverse

/-- Model of Python `float(s)` on strings: optional surrounding whitespace,
optional sign, then `digits`, `digits.digits`, `digits.` or `.digits`.
Exponent notation and the special forms inf/nan are not exercised by the
program and are omitted. `float` of the int `0` (the `row.get` default) is
handled at the call site. -/
def pyFloat (s : String) : Option ℚ :=
  let cs := stripWs s.toList
  let sc : Bool × List Char :=
    match cs with
    | '+' :: r => (false, r)
    | '-' :: r => (true, r)
    | r => (false, r)
  let ip := sc.2.takeWhile Char.isDigit
  let r1 := sc.2.dropWhile Char.isDigit
  let v : Option ℚ :=
    match r1 with
    | [] => if ip.isEmpty then none else some ((digitsVal ip : ℚ))
    | '.' :: r2 =>
      let fp := r2.takeWhile Char.isDigit
      let r3 := r2.dropWhile Char.isDigit
      if r3.isEmpty && !(ip.isEmpty && fp.isEmpty) then
        some ((digitsVal ip : ℚ) + (digitsVal fp : ℚ) / ((10 : ℚ) ^ fp.length))
      else none
    | _ => none
  v.map (fun q => if sc.1 then -q else q)

/-- Model of Python `int(s)` on strings: optional whitespace, optional sign,
one or more digits. `int` of the int `1` (the `row.get` default) is handled at
the call site. -/
def pyInt (s : String) : Option Int :=
  let cs := stripWs s.toList
  let sc : Bool × List Char :=
    match cs with
    | '+' :: r => (false, r)
    | '-' :: r => (true, r)
    | r => (false, r)
  if sc.2.isEmpty || !sc.2.all Char.isDigit then none
  else some (if sc.1 then -(digitsVal sc.2 : Int) else (digitsVal sc.2 : Int))

/-- Model of a Python string slice `s[:n]` (first `n` code points). -/
def pySlice (s : String) (n : Nat) : String :=
  String.mk (s.toList.take n)

/-- `EbayListing.__init__` field-for-field (src/ebay_xlister.py lines 16-27);
`created_at` holds the `datetime.now().isoformat()` string passed in as `now`
by the operation that constructs the listing. -/
structure EbayListing where
  title : String
  price : ℚ
  description : String
  category : String
  condition : String
  quantity : Int
  created_at : String
deriving Repr, DecidableEq

/-- Values appearing in the exported JSON: Python's `json` module keeps
strings, floats and ints apart. -/
inductive JValue where
  | jstr (s : String)
  | jnum (q : ℚ)
  | jint (n : Int)
deriving Repr, DecidableEq

/-- `EbayListing.to_dict` (lines 29-39): the seven key/value pairs in source
order. -/
def to_dict (l : EbayListing) : List (String × JValue) :=
  [("title", JValue.jstr l.title),
   ("price", JValue.jnum l.price),
   ("description", JValue.jstr l.description),
   ("category", JValue.jstr l.category),
   ("condition", JValue.jstr l.condition),
   ("quantity", JValue.jint l.quantity),
   ("created_at", JValue.jstr l.created_at)]

/-- `%.2f` rendering of a price used by `EbayListing.__str__`: round to
hundredths and print two decimals (tie behaviour of binary floats is
abstracted to ordinary rounding). -/
def formatFloat2 (q : ℚ) : String :=
  let n : Int := round (q * 100)
  let a := n.natAbs
  (if n < 0 then "-" else "") ++ toString (a / 100) ++ "." ++
    (if a % 100 < 10 then "0" else "") ++ toString (a % 100)

/-- `EbayListing.__str__` (lines 41-42). -/
def listingStr (l : EbayListing) : String :=
  l.title ++ " - $" ++ formatFloat2 l.price ++ " (" ++ l.condition ++ ")"

/-- The store state: the `listings` list of the `EbayXlister` object plus the
console output produced so far (one entry per `print`). -/
structure EbayXlister where
  listings : List EbayListing := []
  output : List String := []
deriving Repr, DecidableEq

/-- `EbayXlister.add_listing` (lines 51-54): append and print a confirmation. -/
def add_listing (x : EbayXlister) (l : EbayListing) : EbayXlister :=
  { x with listings := x.listings ++ [l],
           output := x.output ++ ["✓ Added listing: " ++ listingStr l] }

/-- One CSV data row as produced by `csv.DictReader`: for each recognised
column, `none` when the column is absent from the header and `some cell`
when it is present (`row.get(key, default)` then returns `cell` verbatim,
even when `cell` is the empty string). -/
structure CsvRow where
  title : Option String := none
  price : Option String := none
  description : Option String := none
  category : Option String := none
  condition : Option String := none
  quantity : Option String := none
deriving Repr, DecidableEq

/-- `float(row.get('price', 0))` (line 65): default `0` only when the column
is missing; a present cell goes through `float`, whose failure raises. -/
def parsePrice (o : Option String) : Except String ℚ :=
  match o with
  | none => Except.ok 0
  | some s =>
    match pyFloat s with
    | some q => Except.ok q
    | none => Except.error ("could not convert string to float: " ++ s)

/-- `int(row.get('quantity', 1))` (line 69): default `1` only when the column
is missing. -/
def parseQuantity (o : Option String) : Except String Int :=
  match o with
  | none => Except.ok 1
  | some s =>
    match pyInt s with
    | some n => Except.ok n
    | none => Except.error ("invalid literal for int with base 10: " ++ s)

/-- Construction of one `EbayListing` from a row (lines 63-70); Python
evaluates the `float` argument before the `int` argument, so the price error
wins when both are malformed.  `Except.error` models the raised exception. -/
def parseRow (r : CsvRow) (now : String) : Except String EbayListing :=
  match parsePrice r.price with
  | Except.error e => Except.error e
  | Except.ok price =>
    match parseQuantity r.quantity with
    | Except.error e => Except.error e
    | Except.ok qty =>
      Except.ok { title := r.title.getD "",
                  price := price,
                  description := r.description.getD "",
                  category := r.category.getD "",
                  condition := r.condition.getD "New",
                  quantity := qty,
                  created_at := now }

/-- `true` iff `parseRow` succeeds on the row. -/
def rowOk (r : CsvRow) (now : String) : Bool :=
  match parseRow r now with
  | Except.ok _ => true
  | Except.error _ => false

/-- The listing a row parses to, when it parses. -/
def rowParsed (r : CsvRow) (now : String) : Option EbayListing :=
  match parseRow r now with
  | Except.ok l => some l
  | Except.error _ => none

/-- The row loop of `import_from_csv` (lines 62-73): each parsed row goes
through `add_listing`; a parse failure is caught by the `except Exception`
arm (lines 76-77), which prints the message and ends the call, skipping the
success line. -/
def importLoop (x : EbayXlister) (rows : List CsvRow) (now fp : String)
    (count : Nat) : EbayXlister :=
  match rows with
  | [] =>
    { x with output := x.output ++
        ["\n✓ Successfully imported " ++ toString count ++ " listings from " ++ fp] }
  | r :: rest =>
    match parseRow r now with
    | Except.ok l => importLoop (add_listing x l) rest now fp (count + 1)
    | Except.error e =>
      { x with output := x.output ++ ["✗ Error importing CSV: " ++ e] }

/-- `EbayXlister.import_from_csv` (lines 56-77): `file = none` is the
`FileNotFoundError` branch (lines 74-75). -/
def import_from_csv (x : EbayXlister) (fp : String)
    (file : Option (List CsvRow)) (now : String) : EbayXlister :=
  match file with
  | none => { x with output := x.output ++ ["✗ Error: File " ++ fp ++ " not found"] }
  | some rows => importLoop x rows now fp 0

/-- `EbayXlister.export_to_json` (lines 79-87).  `writeOk` tells whether the
open/write succeeds; `errMsg` is the exception text otherwise; `prev` is the
destination's prior content, returned unchanged when the write fails. -/
def export_to_json (x : EbayXlister) (fp : String) (writeOk : Bool)
    (errMsg : String) (prev : Option (List (List (String × JValue)))) :
    EbayXlister × Option (List (List (String × JValue))) :=
  let data := x.listings.map to_dict
  if writeOk then
    ({ x with output := x.output ++
        ["✓ Exported " ++ toString x.listings.length ++ " listings to " ++ fp] },
     some data)
  else
    ({ x with output := x.output ++ ["✗ Error exporting JSON: " ++ errMsg] },
     prev)

/-- The per-listing block of `list_all` (lines 99-104), 1-indexed: summary
line, description line only when the description is non-empty (always sliced
to 50 code points and suffixed with an ellipsis), category/quantity line, and
the blank line of the trailing `print()`. -/
def listingLines : List EbayListing → Nat → List String
  | [], _ => []
  | l :: rest, idx =>
    ([toString idx ++ ". " ++ listingStr l] ++
     (if l.description ≠ "" then
        ["   Description: " ++ pySlice l.description 50 ++ "..."]
      else []) ++
     ["   Category: " ++ l.category ++ " | Quantity: " ++ toString l.quantity, ""]) ++
    listingLines rest (idx + 1)

/-- `EbayXlister.list_all` (lines 89-104). -/
def list_all (x : EbayXlister) : EbayXlister :=
  if x.listings = [] then
    { x with output := x.output ++ ["No listings found."] }
  else
    { x with output := x.output ++
        ["\n" ++ String.mk (List.replicate 60 '='),
         "Total Listings: " ++ toString x.listings.length,
         String.mk (List.replicate 60 '=') ++ "\n"] ++
        listingLines x.listings 1 }

/-- Python `sum` over a generator: left fold with start value `0`. -/
def pySum (l : List ℚ) : ℚ :=
  l.foldl (fun a b => a + b) 0

/-- `EbayXlister.get_total_value` (lines 106-108). -/
def get_total_value (x : EbayXlister) : ℚ :=
  pySum (x.listings.map (fun l => l.price * (l.quantity : ℚ)))

/-- The argparse namespace of `main` (lines 113-143): `csv_file`, `json_file`
are `None` or the given path; `add` is `None` or the token list (`nargs` at
least one); `list` is the store-true flag.  Argparse erases the position of
the flags on the command line, so the namespace is all `main` ever sees. -/
structure Args where
  csv_file : Option String := none
  json_file : Option String := none
  add : Option (List String) := none
  list : Bool := false
deriving Repr, DecidableEq

/-- Python truthiness of an optional string (`None` and `""` are falsy). -/
def truthyStr : Option String → Bool
  | none => false
  | some s => s ≠ ""

/-- Python truthiness of an optional token list (`None` and `[]` are falsy). -/
def truthyList : Option (List String) → Bool
  | none => false
  | some l => l ≠ []

/-- `main` (lines 143-174), inlined from the source: the fresh store, then the
four `if` blocks in program order — import, add, list, export.  `fs` resolves
a path to its CSV rows (`none` = missing file), `now` is the clock string,
`writeOk`/`writeErr`/`prev` model the JSON write as in `export_to_json`.
Returns the final store state and the destination content. -/
def pyMain (args : Args) (fs : String → Option (List CsvRow)) (now : String)
    (writeOk : Bool) (writeErr : String)
    (prev : Option (List (List (String × JValue)))) :
    EbayXlister × Option (List (List (String × JValue))) :=
  let x0 : EbayXlister := {}
  let x1 :=
    if truthyStr args.csv_file then
      import_from_csv x0 (args.csv_file.getD "") (fs (args.csv_file.getD "")) now
    else x0
  let x2 :=
    if truthyList args.add then
      match args.add.getD [] with
      | t :: p :: rest =>
        (match pyFloat p with
         | some price =>
           add_listing x1
             { title := t, price := price, description := rest.headD "",
               category := "", condition := "New", quantity := 1, created_at := now }
         | none =>
           { x1 with output := x1.output ++ ["✗ Error: Price must be a number"] })
      | _ =>
        { x1 with output := x1.output ++
            ["✗ Error: --add requires at least title and price"] }
    else x1
  let x3 :=
    if args.list || (!truthyStr args.csv_file && !truthyList args.add &&
                     !truthyStr args.json_file) then
      let y := list_all x2
      if y.listings = [] then y
      else
        { y with output := y.output ++
            ["Total Inventory Value: $" ++ formatFloat2 (get_total_value y) ++ "\n"] }
    else x2
  if truthyStr args.json_file then
    export_to_json x3 (args.json_file.getD "") writeOk writeErr prev
  else (x3, prev)

/-- Step 1 of the spec's fixed order: `--import-csv` before any other action. -/
def importStep (x : EbayXlister) (args : Args)
    (fs : String → Option (List CsvRow)) (now : String) : EbayXlister :=
  if truthyStr args.csv_file then
    import_from_csv x (args.csv_file.getD "") (fs (args.csv_file.getD "")) now
  else x

/-- Step 2 of the spec's fixed order: `--add` needs at least two tokens and a
numeric price; a bad price rejects just this add. -/
def addStep (x : EbayXlister) (args : Args) (now : String) : EbayXlister :=
  if truthyList args.add then
    match args.add.getD [] with
    | t :: p :: rest =>
      (match pyFloat p with
       | some price =>
         add_listing x
           { title := t, price := price, description := rest.headD "",
             category := "", condition := "New", quantity := 1, created_at := now }
       | none =>
         { x with output := x.output ++ ["✗ Error: Price must be a number"] })
    | _ =>
      { x with output := x.output ++
          ["✗ Error: --add requires at least title and price"] }
  else x

/-- Modelled from the spec: listing display triggers when `--list` is given or
when none of the import/add/export flags were given. -/
def specDisplay (args : Args) : Bool :=
  args.list || (!truthyStr args.csv_file && !truthyList args.add &&
                !truthyStr args.json_file)

/-- The display block (lines 167-170): `list_all` plus the inventory-value
line when the store is non-empty. -/
def dispBlock (x : EbayXlister) : EbayXlister :=
  let y := list_all x
  if y.listings = [] then y
  else
    { y with output := y.output ++
        ["Total Inventory Value: $" ++ formatFloat2 (get_total_value y) ++ "\n"] }

/-- Step 3 of the spec's fixed order: listing display under `specDisplay`. -/
def listStep (x : EbayXlister) (args : Args) : EbayXlister :=
  if specDisplay args then dispBlock x else x

/-- Step 4 of the spec's fixed order: `--export-json` last. -/
def exportStep (x : EbayXlister) (args : Args) (writeOk : Bool)
    (writeErr : String) (prev : Option (List (List (String × JValue)))) :
    EbayXlister × Option (List (List (String × JValue))) :=
  if truthyStr args.json_file then
    export_to_json x (args.json_file.getD "") writeOk writeErr prev
  else (x, prev)

/-- Key lookup in an exported record. -/
def jLookup (d : List (String × JValue)) (k : String) : Option JValue :=
  (d.find? (fun p => p.1 == k)).map (fun p => p.2)

/-- Modelled from the spec: reading a string field back from the exported
structured text (the repository contains no reader for its own export; the
spec's round-trip property fixes its meaning). -/
def asStr : Option JValue → Option String
  | some (JValue.jstr s) => some s
  | _ => none

/-- Modelled from the spec: reading the number field back. -/
def asNum : Option JValue → Option ℚ
  | some (JValue.jnum q) => some q
  | _ => none

/-- Modelled from the spec: reading the integer field back. -/
def asInt : Option JValue → Option Int
  | some (JValue.jint n) => some n
  | _ => none

/-- Modelled from the spec: reparsing one exported record into a listing,
field for field (`created_at` read back verbatim). -/
def parseExportedDict (d : List (String × JValue)) : Option EbayListing := do
  let title ← asStr (jLookup d "title")
  let price ← asNum (jLookup d "price")
  let description ← asStr (jLookup d "description")
  let category ← asStr (jLookup d "category")
  let condition ← asStr (jLookup d "condition")
  let quantity ← asInt (jLookup d "quantity")
  let created_at ← asStr (jLookup d "created_at")
  pure { title := title, price := price, description := description,
         category := category, condition := condition, quantity := quantity,
         created_at := created_at }

/-- Modelled from the spec: reparsing the whole exported array. -/
def parseExported (ds : List (List (String × JValue))) :
    Option (List EbayListing) :=
  ds.mapM parseExportedDict

/-! ## Helper lemmas -/

lemma pySum_from (l : List ℚ) : ∀ a : ℚ, l.foldl (fun a b => a + b) a = a + l.sum := by
  induction l with
  | nil => intro a; simp
  | cons h t ih => intro a; simp [List.foldl_cons, ih, add_assoc]

lemma pySum_eq_sum (l : List ℚ) : pySum l = l.sum := by
  simp [pySum, pySum_from]

lemma parseExportedDict_to_dict (l : EbayListing) :
    parseExportedDict (to_dict l) = some l := rfl

lemma parseExported_map_to_dict (ls : List EbayListing) :
    parseExported (ls.map to_dict) = some ls := by
  induction ls with
  | nil => rfl
  | cons h t ih =>
    simp only [List.map_cons, parseExported, List.mapM_cons,
      parseExportedDict_to_dict]
    simp only [parseExported, List.mapM] at ih
    simp [ih]

/-! ## Claims -/

/-- C1: `total_value()` is the sum over all listings of price × quantity, is
`0` on an empty store, and is a pure function of the listings component of the
state (two states with equal listings get equal values, whatever was printed
before). -/
theorem total_value_spec (x y : EbayXlister) (hxy : x.listings = y.listings) :
    get_total_value x =
      (x.listings.map (fun l => l.price * (l.quantity : ℚ))).sum ∧
    (x.listings = [] → get_total_value x = 0) ∧
    get_total_value x = get_total_value y := by
  refine ⟨by simp [get_total_value, pySum_eq_sum], ?_, ?_⟩
  · intro h; simp [get_total_value, h, pySum]
  · simp [get_total_value, hxy]

/-- Witness for C1: a one-listing store; a second state with the same listings
but different console output has the same total value. -/
theorem total_value_spec_witness :
    get_total_value ⟨[⟨"A", 2, "", "", "New", 3, "t"⟩], []⟩ =
      ((⟨[⟨"A", 2, "", "", "New", 3, "t"⟩], []⟩ : EbayXlister).listings.map
        (fun l => l.price * (l.quantity : ℚ))).sum ∧
    ((⟨[⟨"A", 2, "", "", "New", 3, "t"⟩], []⟩ : EbayXlister).listings = [] →
      get_total_value ⟨[⟨"A", 2, "", "", "New", 3, "t"⟩], []⟩ = 0) ∧
    get_total_value ⟨[⟨"A", 2, "", "", "New", 3, "t"⟩], []⟩ =
      get_total_value ⟨[⟨"A", 2, "", "", "New", 3, "t"⟩], ["x"]⟩ :=
  total_value_spec ⟨[⟨"A", 2, "", "", "New", 3, "t"⟩], []⟩
    ⟨[⟨"A", 2, "", "", "New", 3, "t"⟩], ["x"]⟩ rfl

/-- C2: a successful export writes exactly the `to_dict` images of the
in-memory listings, and reparsing that structured text restores every listing
field for field (including `created_at` verbatim). -/
theorem export_roundtrip (x : EbayXlister) (fp err : String)
    (prev : Option (List (List (String × JValue)))) :
    (export_to_json x fp true err prev).2 = some (x.listings.map to_dict) ∧
    parseExported (x.listings.map to_dict) = some x.listings :=
  ⟨rfl, parseExported_map_to_dict x.listings⟩

/-- C4: importing from a nonexistent path reports the failure and leaves the
listings exactly unchanged. -/
theorem import_missing_file (x : EbayXlister) (fp now : String) :
    (import_from_csv x fp none now).listings = x.listings ∧
    (import_from_csv x fp none now).output =
      x.output ++ ["✗ Error: File " ++ fp ++ " not found"] :=
  ⟨rfl, rfl⟩

/-- C7: export reports success with the count of listings written, or failure
with the underlying message; it is a total function (nothing escapes the call
boundary), the store is never modified, and on success the destination content
is the serialized store regardless of what the destination held before. -/
theorem export_reports (x : EbayXlister) (fp err : String)
    (prev prev2 : Option (List (List (String × JValue)))) :
    (export_to_json x fp true err prev).1.output =
      x.output ++ ["✓ Exported " ++ toString x.listings.length ++
                   " listings to " ++ fp] ∧
    (export_to_json x fp true err prev).1.listings = x.listings ∧
    (export_to_json x fp true err prev).2 = some (x.listings.map to_dict) ∧
    (export_to_json x fp true err prev).2 = (export_to_json x fp true err prev2).2 ∧
    (export_to_json x fp false err prev).1.output =
      x.output ++ ["✗ Error exporting JSON: " ++ err] ∧
    (export_to_json x fp false err prev).1.listings = x.listings ∧
    (export_to_json x fp false err prev).2 = prev :=
  ⟨rfl, rfl, rfl, rfl, rfl, rfl, rfl⟩

lemma importLoop_cons_ok {r : CsvRow} {now : String} {l : EbayListing}
    (h : parseRow r now = Except.ok l) (x : EbayXlister)
    (rest : List CsvRow) (fp : String) (c : Nat) :
    importLoop x (r :: rest) now fp c =
      importLoop (add_listing x l) rest now fp (c + 1) := by
  simp [importLoop, h]

lemma importLoop_cons_err {r : CsvRow} {now : String} {e : String}
    (h : parseRow r now = Except.error e) (x : EbayXlister)
    (rest : List CsvRow) (fp : String) (c : Nat) :
    importLoop x (r :: rest) now fp c =
      { x with output := x.output ++ ["✗ Error importing CSV: " ++ e] } := by
  simp [importLoop, h]

lemma rowOk_true {r : CsvRow} {now : String} (h : rowOk r now = true) :
    ∃ l, parseRow r now = Except.ok l := by
  unfold rowOk at h
  cases hp : parseRow r now with
  | ok l => exact ⟨l, rfl⟩
  | error e => rw [hp] at h; cases h

lemma rowOk_false {r : CsvRow} {now : String} (h : rowOk r now = false) :
    ∃ e, parseRow r now = Except.error e := by
  unfold rowOk at h
  cases hp : parseRow r now with
  | ok l => rw [hp] at h; cases h
  | error e => exact ⟨e, rfl⟩

lemma rowParsed_of_ok {r : CsvRow} {now : String} {l : EbayListing}
    (h : parseRow r now = Except.ok l) : rowParsed r now = some l := by
  simp [rowParsed, h]

/-- A parse failure at row `r` ends the import call: everything after `r` is
ignored, exactly the parsed prefix has been added, and the caught exception is
the last line printed. -/
lemma importLoop_fail (now fp : String) (r : CsvRow) (e : String)
    (hr : parseRow r now = Except.error e) :
    ∀ (good : List CsvRow), (∀ g ∈ good, rowOk g now = true) →
    ∀ (x : EbayXlister) (rest : List CsvRow) (c c2 : Nat),
      importLoop x (good ++ r :: rest) now fp c =
        importLoop x (good ++ [r]) now fp c2 ∧
      (importLoop x (good ++ r :: rest) now fp c).listings =
        x.listings ++ good.filterMap (fun g => rowParsed g now) ∧
      ∃ mid, (importLoop x (good ++ r :: rest) now fp c).output =
        x.output ++ mid ++ ["✗ Error importing CSV: " ++ e] := by
  intro good
  induction good with
  | nil =>
    intro _ x rest c c2
    refine ⟨?_, ?_, [], ?_⟩ <;>
      simp [importLoop_cons_err hr]
  | cons g gs ih =>
    intro hg x rest c c2
    obtain ⟨l, hl⟩ := rowOk_true (hg g (List.mem_cons_self g gs))
    have hgs : ∀ a ∈ gs, rowOk a now = true := fun a ha => hg a (List.mem_cons_of_mem g ha)
    obtain ⟨ih1, ih2, mid, ih3⟩ := ih hgs (add_listing x l) rest (c + 1) (c2 + 1)
    refine ⟨?_, ?_, ?_⟩
    · rw [List.cons_append, importLoop_cons_ok hl, List.cons_append,
        importLoop_cons_ok hl]
      exact ih1
    · rw [List.cons_append, importLoop_cons_ok hl, ih2]
      simp [add_listing, rowParsed_of_ok hl]
    · refine ⟨["✓ Added listing: " ++ listingStr l] ++ mid, ?_⟩
      rw [List.cons_append, importLoop_cons_ok hl, ih3]
      simp [add_listing]

/-- A run of rows that all parse adds exactly those rows' listings in order
and prints the success line. -/
lemma importLoop_ok {now fp : String} :
    ∀ (rows : List CsvRow), (∀ g ∈ rows, rowOk g now = true) →
    ∀ (x : EbayXlister) (c : Nat),
      (importLoop x rows now fp c).listings =
        x.listings ++ rows.filterMap (fun g => rowParsed g now) := by
  intro rows
  induction rows with
  | nil => intro _ x c; simp [importLoop]
  | cons g gs ih =>
    intro hg x c
    obtain ⟨l, hl⟩ := rowOk_true (hg g (List.mem_cons_self g gs))
    have hgs : ∀ a ∈ gs, rowOk a now = true := fun a ha => hg a (List.mem_cons_of_mem g ha)
    rw [importLoop_cons_ok hl, ih hgs]
    simp [add_listing, rowParsed_of_ok hl]

lemma filterMap_rowParsed_length {now : String} :
    ∀ (rows : List CsvRow), (∀ g ∈ rows, rowOk g now = true) →
      (rows.filterMap (fun g => rowParsed g now)).length = rows.length := by
  intro rows
  induction rows with
  | nil => intro _; rfl
  | cons g gs ih =>
    intro hg
    obtain ⟨l, hl⟩ := rowOk_true (hg g (List.mem_cons_self g gs))
    have hgs : ∀ a ∈ gs, rowOk a now = true := fun a ha => hg a (List.mem_cons_of_mem g ha)
    simp [rowParsed_of_ok hl, ih hgs]

lemma parseRow_price_err {r : CsvRow} {s : String} (now : String)
    (hs : r.price = some s) (hnum : pyFloat s = none) :
    parseRow r now = Except.error ("could not convert string to float: " ++ s) := by
  simp [parseRow, parsePrice, hs, hnum]

/-- C3: a row whose price cell is a non-numeric string fails the import call
right there: the rows parsed before it are exactly what got added (in order),
the rows after it are never processed, and the exception is converted to an
error line rather than escaping. -/
theorem import_aborts_on_bad_price (x : EbayXlister) (fp now s : String)
    (good rest : List CsvRow) (r : CsvRow)
    (hg : ∀ g ∈ good, rowOk g now = true)
    (hs : r.price = some s) (hnum : pyFloat s = none) :
    import_from_csv x fp (some (good ++ r :: rest)) now =
      import_from_csv x fp (some (good ++ [r])) now ∧
    (import_from_csv x fp (some (good ++ r :: rest)) now).listings =
      x.listings ++ good.filterMap (fun g => rowParsed g now) ∧
    ∃ mid, (import_from_csv x fp (some (good ++ r :: rest)) now).output =
      x.output ++ mid ++
        ["✗ Error importing CSV: could not convert string to float: " ++ s] := by
  have h := importLoop_fail now fp r _ (parseRow_price_err now hs hnum) good hg x rest 0 0
  simpa [import_from_csv] using h

/-- Witness for C3: one good row (price 3), then a row with price "abc", then
one more row that is never reached. -/
theorem import_aborts_on_bad_price_witness :
    import_from_csv ⟨[], []⟩ "f.csv"
        (some ([{ price := some "3" }] ++ { price := some "abc" } ::
               [{ title := some "later" }])) "T" =
      import_from_csv ⟨[], []⟩ "f.csv"
        (some ([{ price := some "3" }] ++ [{ price := some "abc" }])) "T" ∧
    (import_from_csv ⟨[], []⟩ "f.csv"
        (some ([{ price := some "3" }] ++ { price := some "abc" } ::
               [{ title := some "later" }])) "T").listings =
      ([] : List EbayListing) ++
        [{ price := some "3" }].filterMap (fun g => rowParsed g "T") ∧
    ∃ mid, (import_from_csv ⟨[], []⟩ "f.csv"
        (some ([{ price := some "3" }] ++ { price := some "abc" } ::
               [{ title := some "later" }])) "T").output =
      ([] : List String) ++ mid ++
        ["✗ Error importing CSV: could not convert string to float: abc"] :=
  import_aborts_on_bad_price ⟨[], []⟩ "f.csv" "T" "abc"
    [{ price := some "3" }] [{ title := some "later" }] { price := some "abc" }
    (by decide) rfl (by decide)

/-- C5: a column absent from the header gives the documented default for its
field (title/description/category empty, condition "New", price 0,
quantity 1), and an import over rows that all parse grows the store by exactly
the number of rows. -/
theorem import_defaults_and_growth (x : EbayXlister) (fp now : String)
    (rows : List CsvRow) (hall : ∀ g ∈ rows, rowOk g now = true)
    (r : CsvRow) (l : EbayListing) (hparse : parseRow r now = Except.ok l) :
    (r.title = none → l.title = "") ∧
    (r.price = none → l.price = 0) ∧
    (r.description = none → l.description = "") ∧
    (r.category = none → l.category = "") ∧
    (r.condition = none → l.condition = "New") ∧
    (r.quantity = none → l.quantity = 1) ∧
    (import_from_csv x fp (some rows) now).listings.length =
      x.listings.length + rows.length := by
  have hgrow : (import_from_csv x fp (some rows) now).listings.length =
      x.listings.length + rows.length := by
    unfold import_from_csv
    rw [importLoop_ok rows hall x 0]
    simp [filterMap_rowParsed_length rows hall]
  cases hp : parsePrice r.price with
  | error e => simp [parseRow, hp] at hparse
  | ok price =>
    cases hq : parseQuantity r.quantity with
    | error e => simp [parseRow, hp, hq] at hparse
    | ok qty =>
      simp only [parseRow, hp, hq, Except.ok.injEq] at hparse
      refine ⟨?_, ?_, ?_, ?_, ?_, ?_, hgrow⟩ <;> intro h
      · rw [← hparse]; simp [h]
      · rw [h] at hp; simp only [parsePrice, Except.ok.injEq] at hp
        rw [← hparse]; simp [← hp]
      · rw [← hparse]; simp [h]
      · rw [← hparse]; simp [h]
      · rw [← hparse]; simp [h]
      · rw [h] at hq; simp only [parseQuantity, Except.ok.injEq] at hq
        rw [← hparse]; simp [← hq]

/-- Witness for C5: a two-row import into an empty store; the second row has
every column missing, so the parsed listing is all defaults. -/
theorem import_defaults_and_growth_witness :
    (({} : CsvRow).title = none →
      (EbayListing.mk "" 0 "" "" "New" 1 "T").title = "") ∧
    (({} : CsvRow).price = none →
      (EbayListing.mk "" 0 "" "" "New" 1 "T").price = 0) ∧
    (({} : CsvRow).description = none →
      (EbayListing.mk "" 0 "" "" "New" 1 "T").description = "") ∧
    (({} : CsvRow).category = none →
      (EbayListing.mk "" 0 "" "" "New" 1 "T").category = "") ∧
    (({} : CsvRow).condition = none →
      (EbayListing.mk "" 0 "" "" "New" 1 "T").condition = "New") ∧
    (({} : CsvRow).quantity = none →
      (EbayListing.mk "" 0 "" "" "New" 1 "T").quantity = 1) ∧
    (import_from_csv ⟨[], []⟩ "f.csv"
        (some [{ title := some "A", price := some "2.5" }, {}]) "T").listings.length =
      (⟨[], []⟩ : EbayXlister).listings.length +
        [{ title := some "A", price := some "2.5" }, ({} : CsvRow)].length :=
  import_defaults_and_growth ⟨[], []⟩ "f.csv" "T"
    [{ title := some "A", price := some "2.5" }, {}] (by decide)
    {} (EbayListing.mk "" 0 "" "" "New" 1 "T") rfl

lemma pyFloat_empty : pyFloat "" = none := by decide

lemma pyInt_empty : pyInt "" = none := by decide

/-- C10: when the header has the price (or quantity) column and a row's cell
there is the empty string, that row raises (the empty present value is not
the missing-column default: the same row with those columns truly absent
parses fine), so the import call aborts at that row with the parsed prefix
kept and the error printed. -/
theorem import_empty_cell_aborts (x : EbayXlister) (fp now : String)
    (good rest : List CsvRow) (r : CsvRow)
    (hg : ∀ g ∈ good, rowOk g now = true)
    (hr : r.price = some "" ∨ r.quantity = some "") :
    rowOk r now = false ∧
    rowOk { r with price := none, quantity := none } now = true ∧
    import_from_csv x fp (some (good ++ r :: rest)) now =
      import_from_csv x fp (some (good ++ [r])) now ∧
    (import_from_csv x fp (some (good ++ r :: rest)) now).listings =
      x.listings ++ good.filterMap (fun g => rowParsed g now) ∧
    ∃ mid e, (import_from_csv x fp (some (good ++ r :: rest)) now).output =
      x.output ++ mid ++ ["✗ Error importing CSV: " ++ e] := by
  obtain ⟨e, he⟩ : ∃ e, parseRow r now = Except.error e := by
    rcases hr with h | h
    · exact ⟨_, parseRow_price_err now h pyFloat_empty⟩
    · cases hp : parsePrice r.price with
      | error e2 => exact ⟨e2, by simp [parseRow, hp]⟩
      | ok p =>
        refine ⟨"invalid literal for int with base 10: ", ?_⟩
        simp [parseRow, hp, parseQuantity, h, pyInt_empty]
  have hfail := importLoop_fail now fp r e he good hg x rest 0 0
  refine ⟨by simp [rowOk, he], by simp [rowOk, parseRow, parsePrice, parseQuantity], ?_, ?_, ?_⟩
  · simpa [import_from_csv] using hfail.1
  · simpa [import_from_csv] using hfail.2.1
  · obtain ⟨mid, hout⟩ := hfail.2.2
    exact ⟨mid, e, by simpa [import_from_csv] using hout⟩

/-- Witness for C10: header has a price column; the bad row's price cell is
the empty string; one good row before it, one unreached row after it. -/
theorem import_empty_cell_aborts_witness :
    rowOk { price := some "" } "T" = false ∧
    rowOk { ({ price := some "" } : CsvRow) with
            price := none, quantity := none } "T" = true ∧
    import_from_csv ⟨[], []⟩ "f.csv"
        (some ([{ price := some "1" }] ++ { price := some "" } ::
               [{ title := some "later" }])) "T" =
      import_from_csv ⟨[], []⟩ "f.csv"
        (some ([{ price := some "1" }] ++ [{ price := some "" }])) "T" ∧
    (import_from_csv ⟨[], []⟩ "f.csv"
        (some ([{ price := some "1" }] ++ { price := some "" } ::
               [{ title := some "later" }])) "T").listings =
      ([] : List EbayListing) ++
        [{ price := some "1" }].filterMap (fun g => rowParsed g "T") ∧
    ∃ mid e, (import_from_csv ⟨[], []⟩ "f.csv"
        (some ([{ price := some "1" }] ++ { price := some "" } ::
               [{ title := some "later" }])) "T").output =
      ([] : List String) ++ mid ++ ["✗ Error importing CSV: " ++ e] :=
  import_empty_cell_aborts ⟨[], []⟩ "f.csv" "T"
    [{ price := some "1" }] [{ title := some "later" }] { price := some "" }
    (by decide) (Or.inl rfl)

lemma descLine_mem (l : EbayListing) (hne : l.description ≠ "") :
    ∀ (ls : List EbayListing) (idx : Nat), l ∈ ls →
      ("   Description: " ++ pySlice l.description 50 ++ "...") ∈
        listingLines ls idx := by
  intro ls
  induction ls with
  | nil => intro idx h; cases h
  | cons a t ih =>
    intro idx h
    rcases List.mem_cons.mp h with rfl | h2
    · simp [listingLines, hne]
    · simp only [listingLines, List.mem_append]
      exact Or.inr (ih (idx + 1) h2)

lemma list_all_of_ne_nil (x : EbayXlister) (h : x.listings ≠ []) :
    (list_all x).output = x.output ++
      ["\n" ++ String.mk (List.replicate 60 '='),
       "Total Listings: " ++ toString x.listings.length,
       String.mk (List.replicate 60 '=') ++ "\n"] ++
      listingLines x.listings 1 := by
  simp [list_all, h]

lemma string_length_toList (s : String) : s.toList.length = s.length := rfl

/-- C8: a description longer than 50 characters is shown by `list_all` as
exactly its first 50 characters plus an ellipsis, while the exported record
carries the complete description; and `list_all` on an empty store prints the
single no-listings notice and nothing else. -/
theorem list_all_truncates (x y : EbayXlister) (l : EbayListing)
    (fp err : String) (prev : Option (List (List (String × JValue))))
    (hmem : l ∈ x.listings) (hlen : 50 < l.description.length)
    (hy : y.listings = []) :
    ("   Description: " ++ pySlice l.description 50 ++ "...") ∈
      (list_all x).output ∧
    (pySlice l.description 50).length = 50 ∧
    (export_to_json x fp true err prev).2 = some (x.listings.map to_dict) ∧
    ("description", JValue.jstr l.description) ∈ to_dict l ∧
    (list_all y).output = y.output ++ ["No listings found."] := by
  have hne : l.description ≠ "" := by
    intro h; rw [h] at hlen; exact absurd hlen (by decide)
  refine ⟨?_, ?_, rfl, ?_, ?_⟩
  · rw [list_all_of_ne_nil x (List.ne_nil_of_mem hmem)]
    simp only [List.mem_append]
    exact Or.inr (descLine_mem l hne x.listings 1 hmem)
  · show (String.mk (l.description.toList.take 50)).length = 50
    have : (String.mk (l.description.toList.take 50)).length =
        (l.description.toList.take 50).length := rfl
    rw [this, List.length_take, string_length_toList]
    omega
  · simp [to_dict]
  · simp [list_all, hy]

/-- Witness for C8: a store holding one listing with a 51-character
description, next to an empty store. -/
theorem list_all_truncates_witness :
    ("   Description: " ++
        pySlice (EbayListing.mk "A" 1
          "123456789012345678901234567890123456789012345678901" "" "New" 1 "T").description 50 ++
        "...") ∈
      (list_all ⟨[EbayListing.mk "A" 1
          "123456789012345678901234567890123456789012345678901" "" "New" 1 "T"], []⟩).output ∧
    (pySlice (EbayListing.mk "A" 1
        "123456789012345678901234567890123456789012345678901" "" "New" 1 "T").description 50).length = 50 ∧
    (export_to_json ⟨[EbayListing.mk "A" 1
        "123456789012345678901234567890123456789012345678901" "" "New" 1 "T"], []⟩
        "o.json" true "" none).2 =
      some ((⟨[EbayListing.mk "A" 1
        "123456789012345678901234567890123456789012345678901" "" "New" 1 "T"], []⟩ :
          EbayXlister).listings.map to_dict) ∧
    ("description", JValue.jstr (EbayListing.mk "A" 1
        "123456789012345678901234567890123456789012345678901" "" "New" 1 "T").description) ∈
      to_dict (EbayListing.mk "A" 1
        "123456789012345678901234567890123456789012345678901" "" "New" 1 "T") ∧
    (list_all ⟨[], ["p"]⟩).output = ["p"] ++ ["No listings found."] :=
  list_all_truncates
    ⟨[EbayListing.mk "A" 1
        "123456789012345678901234567890123456789012345678901" "" "New" 1 "T"], []⟩
    ⟨[], ["p"]⟩
    (EbayListing.mk "A" 1
        "123456789012345678901234567890123456789012345678901" "" "New" 1 "T")
    "o.json" "" none (by decide) (by decide) rfl

/-- C9: the ellipsis is not a truncation marker: even a non-empty description
of at most 50 characters is printed in full with the trailing "..." by
`list_all`. -/
theorem list_all_ellipsis_always (x : EbayXlister) (l : EbayListing)
    (hmem : l ∈ x.listings) (hne : l.description ≠ "")
    (hlen : l.description.length ≤ 50) :
    ("   Description: " ++ l.description ++ "...") ∈ (list_all x).output := by
  have hsl : pySlice l.description 50 = l.description := by
    show String.mk (l.description.toList.take 50) = l.description
    have h1 : l.description.toList.take 50 = l.description.toList :=
      List.take_of_length_le (by rw [string_length_toList]; exact hlen)
    rw [h1]
    rfl
  rw [list_all_of_ne_nil x (List.ne_nil_of_mem hmem)]
  simp only [List.mem_append]
  refine Or.inr ?_
  have := descLine_mem l hne x.listings 1 hmem
  rwa [hsl] at this

/-- Witness for C9: a 5-character description is printed whole, still with the
ellipsis. -/
theorem list_all_ellipsis_always_witness :
    ("   Description: " ++ "short" ++ "...") ∈
      (list_all ⟨[EbayListing.mk "A" 1 "short" "" "New" 1 "T"], []⟩).output := by
  have h := list_all_ellipsis_always
    ⟨[EbayListing.mk "A" 1 "short" "" "New" 1 "T"], []⟩
    (EbayListing.mk "A" 1 "short" "" "New" 1 "T")
    (by decide) (by decide) (by decide)
  exact h

lemma dispBlock_listings (z : EbayXlister) : (dispBlock z).listings = z.listings := by
  unfold dispBlock list_all
  by_cases h : z.listings = [] <;> simp [h]

lemma listStep_listings (z : EbayXlister) (args : Args) :
    (listStep z args).listings = z.listings := by
  unfold listStep
  by_cases h : specDisplay args = true <;> simp [h, dispBlock_listings]

/-- C6: `main` is exactly the fixed pipeline import → add → list → export,
whatever the flags: the listing display runs under `specDisplay` (forced by
`--list`, or automatic when no import/add/export flag was given), and the
content written by a successful export is the serialization of the store as
it stands after the import and add steps (the display step adds no listing). -/
theorem pyMain_fixed_order (args : Args) (fs : String → Option (List CsvRow))
    (now : String) (ok : Bool) (err : String)
    (prev : Option (List (List (String × JValue)))) :
    pyMain args fs now ok err prev =
      exportStep (listStep (addStep (importStep {} args fs now) args now) args)
        args ok err prev ∧
    (pyMain args fs now ok err prev).2 =
      (if truthyStr args.json_file && ok then
         some ((addStep (importStep {} args fs now) args now).listings.map to_dict)
       else prev) := by
  refine ⟨rfl, ?_⟩
  have h1 : pyMain args fs now ok err prev =
      exportStep (listStep (addStep (importStep {} args fs now) args now) args)
        args ok err prev := rfl
  rw [h1]
  by_cases hj : truthyStr args.json_file = true
  · cases ok with
    | true => simp [exportStep, export_to_json, hj, listStep_listings]
    | false => simp [exportStep, export_to_json, hj]
  · have hj2 : truthyStr args.json_file = false := by
      cases h : truthyStr args.json_file
      · rfl
      · exact absurd h hj
    simp [exportStep, hj2]
